import Mathlib

/-!
Shallow embedding of the tiered memory subsystem and the task scheduler of
the repository (src/core/memory_system.py and src/core/task_engine.py),
together with theorems settling the frozen claims about them.

Modelling conventions:
- Instants (Python time.time()) are modelled as integers; only order
  comparisons on instants matter to the code under study.
- uuid4 identifiers are modelled as externally supplied strings; freshness
  is an explicit hypothesis where a proof needs it.
- Python dicts preserve insertion order and have unique keys, so the
  volatile store is a list of items keyed by id (ids assumed unique),
  with insertion appending and deletion filtering by id.
- metadata (Dict[str, Any]) is modelled as a finite list of string keys
  paired with string-rendered values; json.dumps of such a mapping is
  modelled concretely below, and a database column holding
  json.dumps(metadata) is modelled by the mapping itself, because
  json.loads inverts json.dumps on JSON-serialisable mappings.
-/

/-- MemoryItem dataclass of memory_system.py: id, content, metadata,
created_at, and an optional expires_at defaulting to absent. -/
structure MemoryItem where
  id : String
  content : String
  metadata : List (String × String)
  created_at : Int
  expires_at : Option Int := none
deriving Repr, DecidableEq

/-- The expiry test the source uses everywhere:
item.expires_at is not None and now > item.expires_at. -/
def MemoryItem.isExpiredAt (item : MemoryItem) (now : Int) : Bool :=
  match item.expires_at with
  | none => false
  | some e => now > e

/-- Substring containment, modelling the Python operator pat in s
(character-level scan; the empty pattern is contained in every string). -/
def strContainsSub (s pat : String) : Bool :=
  (List.range (s.length + 1)).any (fun i => pat.data.isPrefixOf (s.data.drop i))

/-- ASCII lowering of one character, modelling str.lower() on the data the
claims exercise (an executable model: kernel-reducible, unlike the library
conversion). -/
def lowerChar (c : Char) : Char :=
  if 65 ≤ c.toNat ∧ c.toNat ≤ 90 then Char.ofNat (c.toNat + 32) else c

/-- str.lower() of a whole string. -/
def strLower (s : String) : String := ⟨s.data.map lowerChar⟩

/-- json.dumps of a string-to-string mapping, as produced with
ensure_ascii=False: \x7b"k": "v", ...\x7d with entries in insertion order. -/
def jsonDumpMeta (meta : List (String × String)) : String :=
  "\x7b" ++
    String.intercalate ", "
      (meta.map (fun kv => "\"" ++ kv.1 ++ "\": \"" ++ kv.2 ++ "\"")) ++
    "\x7d"

/-- ShortTermMemory: the in-RAM dict self._store, modelled as a list in
insertion order with unique ids. -/
structure ShortTermMemory where
  store : List MemoryItem := []
deriving Repr, DecidableEq

namespace ShortTermMemory

/-- ShortTermMemory.add: builds the item with expires_at = now + ttl when a
ttl is given, stores it under its fresh id and returns it. -/
def add (m : ShortTermMemory) (itemId : String) (now : Int) (content : String)
    (ttl : Option Int) (metadata : List (String × String)) :
    MemoryItem × ShortTermMemory :=
  let expires_at := ttl.map (fun t => now + t)
  let item : MemoryItem :=
    ⟨itemId, content, metadata, now, expires_at⟩
  (item, ⟨m.store ++ [item]⟩)

/-- ShortTermMemory.get, embedded faithfully: when the item is absent the
result is none; when it is present and expired (now > expires_at) it is
deleted and the result is none; when it is present and live the source
falls off the end of the function and implicitly returns None, because the
line return item sits after return None inside the expired branch and is
unreachable.  So the live branch also yields none and leaves the store
unchanged. -/
def get (m : ShortTermMemory) (now : Int) (itemId : String) :
    Option MemoryItem × ShortTermMemory :=
  match m.store.find? (fun it => it.id == itemId) with
  | none => (none, m)
  | some item =>
    if item.isExpiredAt now then
      (none, ⟨m.store.filter (fun it => !(it.id == itemId))⟩)
    else
      (none, m)

/-- ShortTermMemory._cleanup_locked: delete every item with
expires_at present and now > expires_at. -/
def cleanup (m : ShortTermMemory) (now : Int) : ShortTermMemory :=
  ⟨m.store.filter (fun it => !(it.isExpiredAt now))⟩

/-- ShortTermMemory.all_items: sweeps expired items, then returns the
survivors (the live items). -/
def all_items (m : ShortTermMemory) (now : Int) :
    List MemoryItem × ShortTermMemory :=
  let m' := m.cleanup now
  (m'.store, m')

/-- Loop body of ShortTermMemory.query: iterate the store in order; an item
is a match when the lowered keyword occurs in the lowered content or in some
lowered metadata value, or failing that in the lowered JSON dump of the
metadata; after appending a match the loop stops as soon as the match count
reaches the limit (checked only after appending). -/
def queryLoop (kw : String) (limit : Int) :
    List MemoryItem → List MemoryItem → List MemoryItem
  | [], found => found
  | item :: rest, found =>
    if strContainsSub (strLower item.content) kw
        || item.metadata.any (fun kv => strContainsSub (strLower kv.2) kw) then
      if limit ≤ ((found ++ [item]).length : Int) then found ++ [item]
      else queryLoop kw limit rest (found ++ [item])
    else if strContainsSub (strLower (jsonDumpMeta item.metadata)) kw then
      if limit ≤ ((found ++ [item]).length : Int) then found ++ [item]
      else queryLoop kw limit rest (found ++ [item])
    else
      queryLoop kw limit rest found

/-- ShortTermMemory.query: sweeps expired items first, then scans with
queryLoop using the lowered keyword. -/
def query (m : ShortTermMemory) (now : Int) (keyword : String) (limit : Int) :
    List MemoryItem × ShortTermMemory :=
  let m' := m.cleanup now
  (queryLoop (strLower keyword) limit m'.store [], m')

/-- The Python min(values, key=created_at): first element with minimal
created_at in iteration order (strict comparison keeps the first on ties). -/
def minByCreated (x : MemoryItem) (xs : List MemoryItem) : MemoryItem :=
  xs.foldl (fun best it => if it.created_at < best.created_at then it else best) x

/-- ShortTermMemory.pop_oldest: absent on an empty store; otherwise removes
and returns the item with minimal created_at among all stored items, with
no expiry filtering. -/
def pop_oldest (m : ShortTermMemory) : Option MemoryItem × ShortTermMemory :=
  match m.store with
  | [] => (none, m)
  | x :: xs =>
    let oldest := minByCreated x xs
    (some oldest, ⟨m.store.filter (fun it => !(it.id == oldest.id))⟩)

end ShortTermMemory

/-- A row of the memories table of LongTermMemory: id (primary key),
content, metadata (a JSON-encoded mapping, modelled by its parsed value),
created_at. -/
structure LTRow where
  id : String
  content : String
  metadata : List (String × String)
  created_at : Int
deriving Repr, DecidableEq

/-- LongTermMemory: the sqlite-backed store.  rows models the memories
table in insertion order; connOpen and pendingWrites model the sqlite3
connection state that close interacts with (every other public operation
commits immediately and is modelled on the open-connection path; sqlite3
raises on operations over a closed connection). -/
structure LongTermMemory where
  rows : List LTRow := []
  connOpen : Bool := true
  pendingWrites : Bool := false
deriving Repr, DecidableEq

namespace LongTermMemory

/-- LongTermMemory.add: inserts a row carrying the fresh id, the content,
the JSON-serialised metadata and the creation instant, commits, and returns
the constructed MemoryItem, whose expires_at is absent by default. -/
def add (db : LongTermMemory) (itemId : String) (now : Int) (content : String)
    (metadata : List (String × String)) : MemoryItem × LongTermMemory :=
  (⟨itemId, content, metadata, now, none⟩,
   { db with rows := db.rows ++ [⟨itemId, content, metadata, now⟩],
             pendingWrites := false })

/-- LongTermMemory.get: point lookup by primary key; the metadata column is
deserialised back (json.loads of the stored json.dumps), and the rebuilt
MemoryItem carries no expires_at. -/
def get (db : LongTermMemory) (itemId : String) : Option MemoryItem :=
  match db.rows.find? (fun r => r.id == itemId) with
  | none => none
  | some r => some ⟨r.id, r.content, r.metadata, r.created_at, none⟩

/-- The LIKE test of LongTermMemory.search: content LIKE %q% OR metadata
LIKE %q%.  sqlite LIKE is ASCII-case-insensitive, modelled by lowering both
sides; the metadata column holds the JSON dump of the mapping. -/
def rowMatches (q : String) (r : LTRow) : Bool :=
  strContainsSub (strLower r.content) (strLower q)
    || strContainsSub (strLower (jsonDumpMeta r.metadata)) (strLower q)

/-- LongTermMemory.search: rows matching the LIKE filter, in storage order,
capped by the SQL LIMIT (a negative LIMIT means no cap in sqlite). -/
def search (db : LongTermMemory) (q : String) (limit : Int) : List MemoryItem :=
  let ms := (db.rows.filter (rowMatches q)).map
    (fun r => (⟨r.id, r.content, r.metadata, r.created_at, none⟩ : MemoryItem))
  if limit < 0 then ms else ms.take limit.toNat

/-- LongTermMemory.delete: removes the row with the given id; returns
whether a row was removed. -/
def deleteRow (db : LongTermMemory) (itemId : String) : Bool × LongTermMemory :=
  (db.rows.any (fun r => r.id == itemId),
   { db with rows := db.rows.filter (fun r => !(r.id == itemId)) })

/-- LongTermMemory.close, embedded faithfully from the try/finally in the
source: commit, then (in the finally) release the connection.  On an open
connection the commit succeeds, pending writes are flushed and the
connection is released.  On an already-closed connection the commit raises
ProgrammingError (sqlite3 cannot operate on a closed database); the finally
still runs conn.close(), a no-op on a closed connection, and the error
propagates.  The result pairs the raised-or-ok outcome with the connection
state afterwards. -/
def close (db : LongTermMemory) : Except String Unit × LongTermMemory :=
  if db.connOpen then
    (Except.ok (), { db with connOpen := false, pendingWrites := false })
  else
    (Except.error "Cannot operate on a closed database.", db)

end LongTermMemory

/-- MemoryManager: composes the two stores and the clamped consolidation
threshold. -/
structure MemoryManager where
  short : ShortTermMemory
  long : LongTermMemory
  consolidation_threshold : Int
deriving Repr, DecidableEq

namespace MemoryManager

/-- MemoryManager.__init__ with a fresh empty LongTermMemory: the stored
threshold is max(1, int(consolidation_threshold)). -/
def create (consolidation_threshold : Int) : MemoryManager :=
  ⟨⟨[]⟩, ⟨[], true, false⟩, max 1 consolidation_threshold⟩

/-- The for-loop of MemoryManager._maybe_consolidate: repeat count times:
pop the oldest volatile item; when absent, continue; otherwise add its
content and metadata to the persistent store under a fresh uuid (supplied
externally, one per iteration). -/
def consolidateMoves (now : Int) (uuidSupply : Nat → String) :
    Nat → MemoryManager → MemoryManager
  | 0, mm => mm
  | k + 1, mm =>
    match mm.short.pop_oldest with
    | (none, s1) => consolidateMoves now uuidSupply k { mm with short := s1 }
    | (some old, s1) =>
      let l1 := (mm.long.add (uuidSupply k) now old.content old.metadata).2
      consolidateMoves now uuidSupply k { mm with short := s1, long := l1 }

/-- MemoryManager._maybe_consolidate, embedded faithfully: read all_items
(which sweeps expired items, so this is the live count); if the count is
greater than the threshold, return immediately; otherwise run the move loop
count - threshold times, a non-positive number in this branch, so the range
is empty (Python range of a non-positive number). -/
def maybe_consolidate (mm : MemoryManager) (now : Int)
    (uuidSupply : Nat → String) : MemoryManager :=
  let p := mm.short.all_items now
  let mm1 : MemoryManager := { mm with short := p.2 }
  if (p.1.length : Int) > mm1.consolidation_threshold then mm1
  else
    let to_move_count : Int := (p.1.length : Int) - mm1.consolidation_threshold
    consolidateMoves now uuidSupply to_move_count.toNat mm1

/-- MemoryManager.remember_short: add to the volatile store, then trigger
the consolidation check. -/
def remember_short (mm : MemoryManager) (itemId : String) (now : Int)
    (content : String) (ttl : Option Int) (metadata : List (String × String))
    (uuidSupply : Nat → String) : MemoryItem × MemoryManager :=
  let p := mm.short.add itemId now content ttl metadata
  (p.1, maybe_consolidate { mm with short := p.2 } now uuidSupply)

/-- MemoryManager.recall: query the volatile store up to limit; when that
yields strictly fewer than limit results, search the persistent store for
the remaining count and append. -/
def recallOp (mm : MemoryManager) (now : Int) (q : String) (limit : Int) :
    List MemoryItem × MemoryManager :=
  let p := mm.short.query now q limit
  let results :=
    if (p.1.length : Int) < limit then
      p.1 ++ mm.long.search q (limit - (p.1.length : Int))
    else p.1
  (results, { mm with short := p.2 })

end MemoryManager

/-- What agent.run() returned in TaskEngine.run_task, as far as the unit
cares: whether history.final_result() succeeds (and with what), and the
str(history) rendering used as the fallback. -/
structure HistoryModel where
  finalResultOk : Option String
  rendering : String
deriving Repr, DecidableEq

/-- Decidable equality for Except outcomes, needed to evaluate concrete
task-engine runs. -/
instance exceptDecEq {ε α : Type} [DecidableEq ε] [DecidableEq α] :
    DecidableEq (Except ε α) := fun x y =>
  match x, y with
  | Except.error a, Except.error b =>
    if h : a = b then isTrue (by rw [h])
    else isFalse (by intro hc; cases hc; exact h rfl)
  | Except.error _, Except.ok _ => isFalse (by intro hc; cases hc)
  | Except.ok _, Except.error _ => isFalse (by intro hc; cases hc)
  | Except.ok a, Except.ok b =>
    if h : a = b then isTrue (by rw [h])
    else isFalse (by intro hc; cases hc; exact h rfl)

/-- The external executor collaborator behind one task unit: whether
create_agent succeeds, and what await agent.run() then does (returns a
history, or raises). -/
structure AgentBehavior where
  createOk : Bool
  runResult : Except String HistoryModel
deriving Repr, DecidableEq

/-- TaskEngine: the ordered queue of (task, mode) pairs and the clamped
concurrency bound. -/
structure TaskEngine where
  queue : List (String × String) := []
  concurrency : Int := 3
deriving Repr, DecidableEq

namespace TaskEngine

/-- TaskEngine.__init__: the stored concurrency is max(1, int(concurrency))
and the queue starts empty. -/
def create (concurrency : Int) : TaskEngine :=
  ⟨[], max 1 concurrency⟩

/-- TaskEngine.add_task: appends to the queue. -/
def add_task (e : TaskEngine) (task mode : String) : TaskEngine :=
  { e with queue := e.queue ++ [(task, mode)] }

/-- TaskEngine.run_task, embedded faithfully: create_agent(task, mode) is
called before the try block, so a failure there propagates to the caller;
inside the try, a raising await agent.run() is caught, logged and yields
None; a raising history.final_result() falls back to str(history); a
succeeding one is returned. -/
def run_task (beh : AgentBehavior) : Except String (Option String) :=
  if beh.createOk then
    match beh.runResult with
    | Except.error _ => Except.ok none
    | Except.ok h =>
      match h.finalResultOk with
      | some r => Except.ok (some r)
      | none => Except.ok (some h.rendering)
  else
    Except.error "create_agent raised"

/-- The per-task outcome of a unit whose agent construction succeeded:
absent when run raised, otherwise the final result or the fallback
rendering. -/
def runOutcome (beh : AgentBehavior) : Option String :=
  match beh.runResult with
  | Except.error _ => none
  | Except.ok h =>
    match h.finalResultOk with
    | some r => some r
    | none => some h.rendering

/-- TaskEngine.run_all: one unit per queued entry, gathered positionally
(asyncio.gather returns results in argument order regardless of completion
order; the semaphore bounds timing only, so the gather is modelled as an
in-order effectful map).  With return_exceptions left False, a raising unit
makes the gather raise instead of returning the list.  The queue is read
but never written. -/
def run_all (e : TaskEngine) (beh : String × String → AgentBehavior) :
    Except String (List (Option String)) × TaskEngine :=
  (e.queue.mapM (fun tm => run_task (beh tm)), e)

end TaskEngine

/-! Concrete stores used to evaluate the volatile-store code bugs. -/

/-- A live item for the C1 scenario: inserted at instant 0 with ttl 10. -/
def c1Item : MemoryItem := ⟨"id1", "hello", [], 0, some 10⟩

/-- A volatile store holding only c1Item. -/
def c1Store : ShortTermMemory := ⟨[c1Item]⟩

/-- C1: the claim says get returns the stored item when it is present and
live.  Evaluating the embedded code: at instant 5 the item of c1Store is
present and live (expires_at = 10 > 5), yet get returns none and leaves the
store unchanged, because the source's return item line is unreachable.  The
expired and missing branches do behave as claimed: at instant 11 the item
is deleted and none is returned, and an unknown id yields none. -/
theorem c1_get_live_returns_none :
    c1Store.get 5 "id1" = (none, c1Store) ∧
    c1Store.get 11 "id1" = (none, ⟨[]⟩) ∧
    c1Store.get 5 "missing" = (none, c1Store) := by decide

/-- An item for the C3 scenario: inserted at instant 0 with ttl 10, so
expires_at = 10. -/
def c3Item : MemoryItem := ⟨"id3", "note", [], 0, some 10⟩

/-- A volatile store holding only c3Item. -/
def c3Store : ShortTermMemory := ⟨[c3Item]⟩

/-- C3: the claim says get returns the item at observation times before
expires_at, and that at now = expires_at the item is treated as expired and
removed.  Evaluating the embedded code: at now = 5 (live) get returns none
with the store unchanged; at now = 10 = expires_at the sweep and get keep
the item (the comparison is strictly now > expires_at); only at now = 11 is
the item deleted. -/
theorem c3_expiry_divergence :
    c3Store.get 5 "id3" = (none, c3Store) ∧
    (c3Store.cleanup 10).store = [c3Item] ∧
    (c3Store.get 10 "id3").2.store = [c3Item] ∧
    c3Store.get 11 "id3" = (none, ⟨[]⟩) ∧
    (c3Store.cleanup 11).store = [] := by decide

/-! The C2 consolidation scenario: threshold 2, three sequential
remember_short calls at instants 0, 1, 2 with ttl 60 (nothing expires). -/

/-- Fresh uuid supply for the C2 scenario's consolidation loop. -/
def c2UuidSupply : Nat → String := fun n => "uuid-" ++ toString n

/-- MemoryManager.create 2: threshold 2, both stores empty. -/
def c2Step0 : MemoryManager := MemoryManager.create 2

/-- After remember_short of item a at instant 0. -/
def c2Step1 : MemoryManager :=
  (c2Step0.remember_short "a" 0 "alpha" (some 60) [] c2UuidSupply).2

/-- After remember_short of item b at instant 1. -/
def c2Step2 : MemoryManager :=
  (c2Step1.remember_short "b" 1 "beta" (some 60) [] c2UuidSupply).2

/-- After remember_short of item c at instant 2. -/
def c2Step3 : MemoryManager :=
  (c2Step2.remember_short "c" 2 "gamma" (some 60) [] c2UuidSupply).2

/-- C2: the claim says that with threshold 2, after three sequential
remember_short calls the persistent store holds exactly 1 item (the oldest)
and the volatile store 2.  Evaluating the embedded code: the persistent
store holds 0 items and the volatile store all 3, because _maybe_consolidate
returns early precisely when the count exceeds the threshold and otherwise
computes a non-positive move count — so nothing is ever migrated. -/
theorem c2_no_consolidation :
    c2Step3.long.rows.length = 0 ∧
    c2Step3.short.store.length = 3 ∧
    c2Step3.short.store.map MemoryItem.id = ["a", "b", "c"] := by decide

/-! C8: LongTermMemory.close under sequential reuse. -/

/-- A freshly opened, empty persistent store for the C8 scenario. -/
def c8Db : LongTermMemory := ⟨[], true, false⟩

/-- C8 counterexample: the claim says a second sequential close succeeds
without fault.  Evaluating the embedded code on a freshly opened store: the
second close raises (the commit inside close operates on the now-closed
connection), so it does not succeed. -/
theorem c8_counterexample :
    ((c8Db.close).2.close).1 =
        Except.error "Cannot operate on a closed database." ∧
    ((c8Db.close).2.close).1 ≠ Except.ok () := by decide

/-- C8 amended: close commits pending writes and releases the connection,
but it is not idempotent: a second sequential close raises, because the
commit inside close operates on a closed connection; the connection itself
stays closed (the finally-close is a no-op). -/
theorem c8_amended (db : LongTermMemory) (h : db.connOpen = true) :
    (db.close).1 = Except.ok () ∧
    (db.close).2.connOpen = false ∧
    (db.close).2.pendingWrites = false ∧
    ((db.close).2.close).1 =
      Except.error "Cannot operate on a closed database." := by
  simp [LongTermMemory.close, h]

/-- C8 witness: the amended behaviour evaluated on the concrete store. -/
theorem c8_amended_witness :
    (c8Db.close).1 = Except.ok () ∧
    (c8Db.close).2.connOpen = false ∧
    (c8Db.close).2.pendingWrites = false ∧
    ((c8Db.close).2.close).1 =
      Except.error "Cannot operate on a closed database." :=
  c8_amended c8Db rfl

/-- C9: both constructors clamp their integer argument: the stored
concurrency is max(1, concurrency) and the stored consolidation threshold
is max(1, consolidation_threshold), hence both are always at least 1 (zero
and negative inputs are silently clamped, not rejected). -/
theorem c9_clamped_construction (c t : Int) :
    (TaskEngine.create c).concurrency = max 1 c ∧
    1 ≤ (TaskEngine.create c).concurrency ∧
    (MemoryManager.create t).consolidation_threshold = max 1 t ∧
    1 ≤ (MemoryManager.create t).consolidation_threshold :=
  ⟨rfl, le_max_left 1 c, rfl, le_max_left 1 t⟩

/-! C10: add/get round-trip on the persistent store. -/

/-- C10: for every store state, content and metadata mapping, if the fresh
uuid drawn by add does not collide with an existing row id, then get applied
to the id of the item that add returned yields exactly that item: same
content, same metadata (json.loads undoes json.dumps), same created_at, and
an absent expires_at. -/
theorem c10_add_get_roundtrip (db : LongTermMemory) (itemId : String)
    (now : Int) (content : String) (metadata : List (String × String))
    (hfresh : ∀ r ∈ db.rows, r.id ≠ itemId) :
    (db.add itemId now content metadata).1 =
      ⟨itemId, content, metadata, now, none⟩ ∧
    (db.add itemId now content metadata).2.get
        ((db.add itemId now content metadata).1.id) =
      some ((db.add itemId now content metadata).1) := by
  refine ⟨rfl, ?_⟩
  have hnone : db.rows.find? (fun r => r.id == itemId) = none := by
    rw [List.find?_eq_none]
    intro r hr
    simpa using hfresh r hr
  simp [LongTermMemory.add, LongTermMemory.get, List.find?_append, hnone]

/-- C10 witness: the round-trip evaluated on an empty store with concrete
content and metadata. -/
theorem c10_witness :
    ((⟨[], true, false⟩ : LongTermMemory).add "id10" 7 "hello" [("k", "v")]).1 =
      ⟨"id10", "hello", [("k", "v")], 7, none⟩ ∧
    ((⟨[], true, false⟩ : LongTermMemory).add "id10" 7 "hello" [("k", "v")]).2.get
        ((((⟨[], true, false⟩ : LongTermMemory).add "id10" 7 "hello" [("k", "v")]).1).id) =
      some (((⟨[], true, false⟩ : LongTermMemory).add "id10" 7 "hello" [("k", "v")]).1) :=
  c10_add_get_roundtrip ⟨[], true, false⟩ "id10" 7 "hello" [("k", "v")]
    (by intro r hr; cases hr)

/-! C7: pop_oldest drains in non-decreasing created_at order. -/

/-- Unfolding minByCreated one step. -/
theorem minByCreated_cons (x y : MemoryItem) (ys : List MemoryItem) :
    ShortTermMemory.minByCreated x (y :: ys) =
      ShortTermMemory.minByCreated
        (if y.created_at < x.created_at then y else x) ys := rfl

/-- The fold of minByCreated lands on one of the candidates. -/
theorem minByCreated_mem (x : MemoryItem) (xs : List MemoryItem) :
    ShortTermMemory.minByCreated x xs ∈ x :: xs := by
  induction xs generalizing x with
  | nil => simp [ShortTermMemory.minByCreated]
  | cons y ys ih =>
    rw [minByCreated_cons]
    rcases List.mem_cons.mp
        (ih (if y.created_at < x.created_at then y else x)) with h | h
    · rw [h]
      by_cases hlt : y.created_at < x.created_at
      · simp [hlt]
      · simp [hlt]
    · exact List.mem_cons_of_mem _ (List.mem_cons_of_mem _ h)

/-- The fold of minByCreated is a lower bound of all candidates. -/
theorem minByCreated_le (x : MemoryItem) (xs : List MemoryItem) :
    ∀ y ∈ x :: xs,
      (ShortTermMemory.minByCreated x xs).created_at ≤ y.created_at := by
  induction xs generalizing x with
  | nil =>
    intro y hy
    rw [List.mem_singleton] at hy
    rw [hy]
    simp [ShortTermMemory.minByCreated]
  | cons z zs ih =>
    intro y hy
    rw [minByCreated_cons]
    have hstep1 :
        (if z.created_at < x.created_at then z else x).created_at ≤
          x.created_at := by
      by_cases hlt : z.created_at < x.created_at
      · simp [hlt, le_of_lt hlt]
      · simp [hlt]
    have hstep2 :
        (if z.created_at < x.created_at then z else x).created_at ≤
          z.created_at := by
      by_cases hlt : z.created_at < x.created_at
      · simp [hlt]
      · simp [hlt, le_of_not_lt hlt]
    have hhead :
        (ShortTermMemory.minByCreated
            (if z.created_at < x.created_at then z else x) zs).created_at ≤
          (if z.created_at < x.created_at then z else x).created_at :=
      ih _ _ (List.mem_cons_self _ _)
    rcases List.mem_cons.mp hy with h1 | hy'
    · rw [h1]
      exact le_trans hhead hstep1
    · rcases List.mem_cons.mp hy' with h2 | h3
      · rw [h2]
        exact le_trans hhead hstep2
      · exact ih _ y (List.mem_cons_of_mem _ h3)

/-- Unfolding pop_oldest on a non-empty store. -/
theorem pop_oldest_cons (x : MemoryItem) (xs : List MemoryItem) :
    ShortTermMemory.pop_oldest ⟨x :: xs⟩ =
      (some (ShortTermMemory.minByCreated x xs),
       ⟨(x :: xs).filter
          (fun it => !(it.id == (ShortTermMemory.minByCreated x xs).id))⟩) := rfl

/-- C7: pop_oldest returns absent exactly on the empty store; a returned
item has minimal created_at among all currently stored items (no expiry
filtering is involved: pop_oldest never looks at expires_at), and two
successive pops return items in non-decreasing created_at order, so
repeated calls drain the store in non-decreasing created_at order. -/
theorem c7_pop_oldest_order (m : ShortTermMemory) :
    ((m.pop_oldest).1 = none ↔ m.store = []) ∧
    (∀ x m', m.pop_oldest = (some x, m') →
      (∀ y ∈ m.store, x.created_at ≤ y.created_at) ∧
      (∀ y m'', m'.pop_oldest = (some y, m'') →
        x.created_at ≤ y.created_at)) := by
  obtain ⟨store⟩ := m
  cases store with
  | nil =>
    refine ⟨by simp [ShortTermMemory.pop_oldest], ?_⟩
    intro x m' h
    simp [ShortTermMemory.pop_oldest, Prod.mk.injEq] at h
  | cons a as =>
    refine ⟨by simp [pop_oldest_cons], ?_⟩
    intro x m' h
    rw [pop_oldest_cons, Prod.mk.injEq] at h
    obtain ⟨h1, h2⟩ := h
    have hx : x = ShortTermMemory.minByCreated a as := (Option.some.inj h1).symm
    subst hx
    subst h2
    constructor
    · exact minByCreated_le a as
    · intro y m'' h3
      rcases hfe : (a :: as).filter
          (fun it => !(it.id == (ShortTermMemory.minByCreated a as).id)) with
        _ | ⟨b, bs⟩
      · rw [hfe] at h3
        simp [ShortTermMemory.pop_oldest, Prod.mk.injEq] at h3
      · rw [hfe] at h3
        rw [pop_oldest_cons, Prod.mk.injEq] at h3
        have hy : y = ShortTermMemory.minByCreated b bs :=
          (Option.some.inj h3.1).symm
        have hmem : y ∈ b :: bs := by
          rw [hy]
          exact minByCreated_mem b bs
        have hmem' : y ∈ (a :: as).filter
            (fun it => !(it.id == (ShortTermMemory.minByCreated a as).id)) := by
          rw [hfe]
          exact hmem
        exact minByCreated_le a as y (List.mem_filter.mp hmem').1

/-- First concrete item of the C7 witness scenario, created at instant 1. -/
def c7ItemA : MemoryItem := ⟨"a7", "x", [], 1, none⟩

/-- Second concrete item of the C7 witness scenario, created at instant 2. -/
def c7ItemB : MemoryItem := ⟨"b7", "y", [], 2, none⟩

/-- Volatile store for the C7 witness scenario. -/
def c7Mem : ShortTermMemory := ⟨[c7ItemA, c7ItemB]⟩

/-- C7 witness: two successive pops on the concrete store return items with
non-decreasing created_at. -/
theorem c7_witness : c7ItemA.created_at ≤ c7ItemB.created_at :=
  ((c7_pop_oldest_order c7Mem).2 c7ItemA ⟨[c7ItemB]⟩ (by decide)).2
    c7ItemB ⟨[]⟩ (by decide)

/-! C4 and C5: task-engine failure handling and gather shape. -/

/-- When agent construction succeeds, run_task never raises: it returns
exactly the per-task outcome (absent on an executor-run failure). -/
theorem run_task_ok (beh : AgentBehavior) (h : beh.createOk = true) :
    TaskEngine.run_task beh = Except.ok (TaskEngine.runOutcome beh) := by
  obtain ⟨cOk, runRes⟩ := beh
  cases cOk with
  | false => exact Bool.noConfusion h
  | true =>
    cases runRes with
    | error e => rfl
    | ok hist =>
      obtain ⟨fr, rend⟩ := hist
      cases fr <;> rfl

/-- Gathering units whose construction succeeds yields the in-order list of
per-task outcomes. -/
theorem mapM_run_task_ok (beh : String × String → AgentBehavior) :
    ∀ queue : List (String × String),
      (∀ tm ∈ queue, (beh tm).createOk = true) →
      queue.mapM (fun tm => TaskEngine.run_task (beh tm)) =
        Except.ok (queue.map (fun tm => TaskEngine.runOutcome (beh tm))) := by
  intro queue
  induction queue with
  | nil => intro _; rfl
  | cons tm rest ih =>
    intro h
    have h1 : (beh tm).createOk = true := h tm (List.mem_cons_self _ _)
    have h2 : ∀ x ∈ rest, (beh x).createOk = true :=
      fun x hx => h x (List.mem_cons_of_mem _ hx)
    rw [List.mapM_cons, run_task_ok _ h1, ih h2]
    rfl

/-- Behavior of a unit whose agent construction fails (C4 scenario). -/
def c4BadBeh : AgentBehavior := ⟨false, Except.ok ⟨none, ""⟩⟩

/-- C4 counterexample: the claim says any failure arising while executing a
task unit inside run_task is caught at the unit boundary and yields absent
at that task's position only.  A failure in create_agent — which run_task
calls before entering its try block — instead propagates out of run_task,
and run_all then raises instead of delivering per-task results. -/
theorem c4_counterexample :
    TaskEngine.run_task c4BadBeh = Except.error "create_agent raised" ∧
    (TaskEngine.run_all ⟨[("t", "browser")], 3⟩ (fun _ => c4BadBeh)).1 =
      Except.error "create_agent raised" := by decide

/-- C4 amended: failures raised by the executor's run (or by final-result
extraction, which falls back to the rendering) are caught, logged and yield
absent at that task's position, never aborting siblings or run_all; but a
failure in agent construction, raised before the try block, propagates.
Under the hypothesis that construction succeeds for every queued task,
run_all returns the in-order per-task outcomes, and a task whose run raised
contributes absent at its own position only. -/
theorem c4_amended (queue : List (String × String))
    (beh : String × String → AgentBehavior)
    (h : ∀ tm ∈ queue, (beh tm).createOk = true) :
    (TaskEngine.run_all ⟨queue, 3⟩ beh).1 =
      Except.ok (queue.map (fun tm => TaskEngine.runOutcome (beh tm))) ∧
    ∀ tm ∈ queue, ∀ e, (beh tm).runResult = Except.error e →
      TaskEngine.runOutcome (beh tm) = none := by
  constructor
  · exact mapM_run_task_ok beh queue h
  · intro tm _ e he
    unfold TaskEngine.runOutcome
    rw [he]

/-- Behavior of a healthy unit for the C4 witness. -/
def c4GoodBeh : AgentBehavior := ⟨true, Except.ok ⟨some "done", "hist"⟩⟩

/-- Behavior of a unit whose executor run raises (construction fine). -/
def c4FailBeh : AgentBehavior := ⟨true, Except.error "boom"⟩

/-- Behavior map for the C4 witness: the task named good succeeds, every
other task's run raises. -/
def c4BehMap : String × String → AgentBehavior :=
  fun tm => if tm.1 == "good" then c4GoodBeh else c4FailBeh

/-- C4 witness: the amended statement applied to a concrete queue of two
tasks, one of which fails during run. -/
theorem c4_witness :
    (TaskEngine.run_all ⟨[("good", "browser"), ("bad", "code")], 3⟩ c4BehMap).1 =
      Except.ok ([("good", "browser"), ("bad", "code")].map
        (fun tm => TaskEngine.runOutcome (c4BehMap tm))) ∧
    ∀ tm ∈ [("good", "browser"), ("bad", "code")], ∀ e,
      (c4BehMap tm).runResult = Except.error e →
      TaskEngine.runOutcome (c4BehMap tm) = none :=
  c4_amended [("good", "browser"), ("bad", "code")] c4BehMap (by decide)

/-- Behavior of a unit whose agent construction fails (C5 scenario). -/
def c5BadBeh : AgentBehavior := ⟨false, Except.error "unused"⟩

/-- C5 counterexample: the claim says run_all always returns exactly N
per-task outcomes.  With one queued task whose agent construction fails,
run_all raises instead: no result sequence at all is returned. -/
theorem c5_counterexample :
    (TaskEngine.run_all ⟨[("t5", "code")], 1⟩ (fun _ => c5BadBeh)).1 =
      Except.error "create_agent raised" ∧
    ∀ rs : List (Option String),
      (TaskEngine.run_all ⟨[("t5", "code")], 1⟩ (fun _ => c5BadBeh)).1 ≠
        Except.ok rs := by
  have h1 : (TaskEngine.run_all ⟨[("t5", "code")], 1⟩ (fun _ => c5BadBeh)).1 =
      Except.error "create_agent raised" := by decide
  refine ⟨h1, ?_⟩
  intro rs hctr
  rw [h1] at hctr
  exact Except.noConfusion hctr

/-- C5 amended: whenever every queued task's agent construction succeeds,
run_all returns exactly one outcome per queued task, positionally aligned
with submission order (the gather is a structural in-order join), and the
engine — its queue included — is not modified; when some construction
fails, run_all raises instead of returning a sequence. -/
theorem c5_amended (e : TaskEngine) (beh : String × String → AgentBehavior)
    (h : ∀ tm ∈ e.queue, (beh tm).createOk = true) :
    (TaskEngine.run_all e beh).2 = e ∧
    (TaskEngine.run_all e beh).1 =
      Except.ok (e.queue.map (fun tm => TaskEngine.runOutcome (beh tm))) ∧
    (e.queue.map (fun tm => TaskEngine.runOutcome (beh tm))).length =
      e.queue.length :=
  ⟨rfl, mapM_run_task_ok beh e.queue h, by simp⟩

/-- Engine for the C5 witness: two queued tasks, concurrency 2. -/
def c5Engine : TaskEngine := ⟨[("x", "browser"), ("y", "code")], 2⟩

/-- All-healthy behavior map for the C5 witness. -/
def c5Beh : String × String → AgentBehavior :=
  fun _ => ⟨true, Except.ok ⟨some "ok", "h"⟩⟩

/-- C5 witness: the amended statement applied to the concrete engine. -/
theorem c5_witness :
    (TaskEngine.run_all c5Engine c5Beh).2 = c5Engine ∧
    (TaskEngine.run_all c5Engine c5Beh).1 =
      Except.ok (c5Engine.queue.map
        (fun tm => TaskEngine.runOutcome (c5Beh tm))) ∧
    (c5Engine.queue.map (fun tm => TaskEngine.runOutcome (c5Beh tm))).length =
      c5Engine.queue.length :=
  c5_amended c5Engine c5Beh (by decide)

/-! C6: recall returns at most limit items, volatile before persistent. -/

/-- Invariant of the query loop: starting strictly below the limit, the
returned match list never exceeds the limit (the limit is re-checked right
after every append). -/
theorem queryLoop_length_le (kw : String) (limit : Int) :
    ∀ (l acc : List MemoryItem), ((acc.length : Int)) < limit →
      (((ShortTermMemory.queryLoop kw limit l acc).length : Int)) ≤ limit := by
  intro l
  induction l with
  | nil =>
    intro acc h
    unfold ShortTermMemory.queryLoop
    exact le_of_lt h
  | cons item rest ih =>
    intro acc h
    have hle : (((acc ++ [item]).length : Int)) ≤ limit := by
      simp only [List.length_append, List.length_singleton]
      push_cast
      omega
    unfold ShortTermMemory.queryLoop
    split
    · split
      · exact hle
      · next hnot => exact ih _ (not_le.mp hnot)
    · split
      · split
        · exact hle
        · next hnot => exact ih _ (not_le.mp hnot)
      · exact ih _ h

/-- The volatile query returns at most limit items when limit is positive. -/
theorem query_length_le (m : ShortTermMemory) (now : Int) (kw : String)
    (limit : Int) (h : 0 < limit) :
    (((m.query now kw limit).1.length : Int)) ≤ limit := by
  unfold ShortTermMemory.query
  exact queryLoop_length_le _ _ _ [] (by simpa using h)

/-- The persistent search returns at most limit rows when limit is
positive (the SQL LIMIT caps the row count). -/
theorem search_length_le (db : LongTermMemory) (q : String) (limit : Int)
    (h : 0 < limit) :
    (((db.search q limit).length : Int)) ≤ limit := by
  unfold LongTermMemory.search
  rw [if_neg (by omega)]
  calc
    ((((db.rows.filter (LongTermMemory.rowMatches q)).map
        (fun r => (⟨r.id, r.content, r.metadata, r.created_at,
          none⟩ : MemoryItem))).take limit.toNat).length : Int)
        ≤ (limit.toNat : Int) := by
          exact_mod_cast List.length_take_le _ _
    _ = limit := Int.toNat_of_nonneg (le_of_lt h)

/-- Volatile store for the C6 counterexample: one item whose content
matches the query. -/
def c6Item : MemoryItem := ⟨"id6", "apple pie", [], 0, none⟩

/-- Manager for the C6 scenarios. -/
def c6Mgr : MemoryManager := ⟨⟨[c6Item]⟩, ⟨[], true, false⟩, 50⟩

/-- C6 counterexample: the claim quantifies over every limit, but with
limit = 0 recall still returns one matching volatile item — the loop checks
the limit only after appending a match — so the result exceeds the limit. -/
theorem c6_counterexample :
    (c6Mgr.recallOp 0 "apple" 0).1 = [c6Item] ∧
    ¬ ((((c6Mgr.recallOp 0 "apple" 0).1.length : Int)) ≤ 0) := by decide

/-- C6 amended: for every query string and every limit at least 1, recall
returns at most limit items; the result is the volatile matches followed by
persistent matches, and the persistent store is searched exactly when the
volatile store yielded strictly fewer than limit results, for exactly the
remaining count.  (For limit at most 0 a single matching volatile item can
still be returned, because the query loop checks the limit only after
appending a match.) -/
theorem c6_amended (mm : MemoryManager) (now : Int) (q : String)
    (limit : Int) (h : 1 ≤ limit) :
    ((((mm.recallOp now q limit).1.length : Int)) ≤ limit) ∧
    (mm.recallOp now q limit).1 =
      (mm.short.query now q limit).1 ++
        (if (((mm.short.query now q limit).1.length : Int)) < limit then
          mm.long.search q
            (limit - (((mm.short.query now q limit).1.length : Int)))
        else []) := by
  have hq : (((mm.short.query now q limit).1.length : Int)) ≤ limit :=
    query_length_le mm.short now q limit (by omega)
  constructor
  · unfold MemoryManager.recallOp
    dsimp only
    by_cases hc : (((mm.short.query now q limit).1.length : Int)) < limit
    · rw [if_pos hc]
      have hs : (((mm.long.search q
          (limit - (((mm.short.query now q limit).1.length : Int)))).length
            : Int)) ≤ limit - (((mm.short.query now q limit).1.length : Int)) :=
        search_length_le mm.long q _ (by omega)
      simp only [List.length_append]
      push_cast
      omega
    · rw [if_neg hc]
      exact hq
  · unfold MemoryManager.recallOp
    dsimp only
    by_cases hc : (((mm.short.query now q limit).1.length : Int)) < limit
    · rw [if_pos hc, if_pos hc]
    · rw [if_neg hc, if_neg hc, List.append_nil]

/-- C6 witness: the amended statement applied to the concrete manager with
limit 1. -/
theorem c6_witness :
    ((((c6Mgr.recallOp 0 "apple" 1).1.length : Int)) ≤ 1) ∧
    (c6Mgr.recallOp 0 "apple" 1).1 =
      (c6Mgr.short.query 0 "apple" 1).1 ++
        (if (((c6Mgr.short.query 0 "apple" 1).1.length : Int)) < 1 then
          c6Mgr.long.search "apple"
            (1 - (((c6Mgr.short.query 0 "apple" 1).1.length : Int)))
        else []) :=
  c6_amended c6Mgr 0 "apple" 1 (by omega)
